import Mathlib

/-!
Verification development for the origin-voicebox provider abstraction layer.

The definitions below are shallow embeddings of the Python source:

* `get_backend_type`, `is_apple_silicon`  — src/backend/platform_detect.py
* `bundled_health`, `bundled_status`      — src/backend/providers/bundled.py
* `LPState`, `lpStep`, `lpRun`, `local_health`, `local_status`,
  `local_combine`                         — src/backend/providers/local.py
* `rep_load_model`, `rep_generate`,
  `replicate_combine`                     — src/backend/backends/replicate_backend.py
* `b64encode`, `b64decode`, `mkRefAudioUri` — the base64 / data-URI handling used
  by the cloud backend (Python base64.b64encode / b64decode semantics)

Python dictionary truthiness for strings (`if not s:` is true for `None` and
`""`) is modelled by `truthyOpt`.  Fallible operations (file reads, HTTP
probes) are modelled with `Option` / `Except`; a network interaction appears
as an explicit request value in the result, so "no network call attempted"
is "the function returns an error before producing a request".
-/

/-- Python truthiness of an optional string: `None` and `""` are falsy. -/
def truthyOpt (o : Option String) : Bool :=
  o.getD "" ≠ ""

/-! ### Platform detection — src/backend/platform_detect.py -/

/-- Environment variables read by the backend selector and the cloud backend. -/
structure Env where
  ttsBackend : Option String
  replicateApiToken : Option String
  replicateApiKey : Option String
deriving DecidableEq, Repr

/-- Host facts probed by `platform_detect`: `platform.system()`,
`platform.machine()`, and whether `import mlx` succeeds. -/
structure Host where
  system : String
  machine : String
  mlxImportable : Bool
deriving DecidableEq, Repr

/-- Python `str.lower()` (character-wise lower-casing). -/
def pyLower (s : String) : String :=
  String.mk (s.data.map Char.toLower)

/-- `is_apple_silicon` from src/backend/platform_detect.py. -/
def is_apple_silicon (h : Host) : Bool :=
  h.system = "Darwin" ∧ h.machine = "arm64"

/-- `get_backend_type` from src/backend/platform_detect.py: explicit
`TTS_BACKEND` override (lower-cased, must be one of the three recognized
values), else Replicate when a credential variable is truthy, else MLX on
Apple Silicon with mlx importable, else PyTorch. -/
def get_backend_type (env : Env) (host : Host) : String :=
  let backendEnv := pyLower (env.ttsBackend.getD "")
  if backendEnv = "mlx" ∨ backendEnv = "pytorch" ∨ backendEnv = "replicate" then
    backendEnv
  else if truthyOpt env.replicateApiToken ∨ truthyOpt env.replicateApiKey then
    "replicate"
  else if is_apple_silicon host then
    (if host.mlxImportable then "mlx" else "pytorch")
  else
    "pytorch"

/-! ### Health / status snapshots — src/backend/providers/types.py data model -/

/-- `ProviderHealth` snapshot. -/
structure ProviderHealth where
  status : String
  provider : String
  version : Option String
  model : Option String
  device : Option String
deriving DecidableEq, Repr

/-- `ProviderStatus` snapshot. -/
structure ProviderStatus where
  modelLoaded : Bool
  modelSize : Option String
  availableSizes : List String
  gpuAvailable : Option Bool
  vramUsedMb : Option Int
deriving DecidableEq, Repr

/-! ### Bundled (in-process) provider — src/backend/providers/bundled.py -/

/-- Observable state of the wrapped in-process backend used by
`BundledProvider.health` / `BundledProvider.status`: `is_loaded()`, the
`_current_model_size` attribute (when present), and the backend's `device`
attribute (when present). -/
structure BackendObs where
  isLoaded : Bool
  currentModelSize : Option String
  device : Option String
deriving DecidableEq, Repr

/-- GPU facts read via torch in `BundledProvider.status`: whether torch is
importable, `torch.cuda.is_available()`, and allocated VRAM in MB. -/
structure TorchObs where
  importable : Bool
  cudaAvailable : Bool
  memAllocatedMb : Int
deriving DecidableEq, Repr

/-- `BundledProvider.health` from src/backend/providers/bundled.py: always
returns status "healthy"; provider name, model and device depend on the
detected backend type and the wrapped backend's state. -/
def bundled_health (env : Env) (host : Host) (b : BackendObs) : ProviderHealth :=
  let backendType := get_backend_type env host
  let modelSize :=
    if b.isLoaded ∧ truthyOpt b.currentModelSize then b.currentModelSize else none
  let device :=
    if backendType = "mlx" then some "metal" else b.device
  let providerName :=
    if backendType = "mlx" then "apple-mlx" else "pytorch-cpu"
  ⟨"healthy", providerName, none, modelSize, device⟩

/-- `BundledProvider.status` from src/backend/providers/bundled.py:
`available_sizes` starts as `["1.7B"]` and `"0.6B"` is appended exactly when
the detected backend type is "pytorch"; GPU facts are probed only on
pytorch. -/
def bundled_status (env : Env) (host : Host) (b : BackendObs) (t : TorchObs) :
    ProviderStatus :=
  let backendType := get_backend_type env host
  let modelSize :=
    if b.isLoaded ∧ truthyOpt b.currentModelSize then b.currentModelSize else none
  let availableSizes :=
    if backendType = "pytorch" then ["1.7B", "0.6B"] else ["1.7B"]
  let gpuAvailable :=
    if backendType = "pytorch" ∧ t.importable then some t.cudaAvailable else none
  let vramUsedMb :=
    if backendType = "pytorch" ∧ t.importable ∧ t.cudaAvailable ∧ t.memAllocatedMb ≠ 0
    then some t.memAllocatedMb else none
  ⟨b.isLoaded, modelSize, availableSizes, gpuAvailable, vramUsedMb⟩

/-! ### Remote-process provider — src/backend/providers/local.py -/

/-- A voice prompt as passed to `LocalProvider.generate` (opaque JSON dict
from this provider's point of view: it is forwarded verbatim). -/
structure VPDict where
  fields : List (String × String)
deriving DecidableEq, Repr

/-- JSON body of `POST /tts/generate` built by `LocalProvider.generate`. -/
structure GenBody where
  text : String
  voicePrompt : VPDict
  language : String
  seed : Option Int
  modelSize : String
deriving DecidableEq, Repr

/-- A network request issued by the remote-process provider. -/
inductive LPRequest where
  | post (url : String) (body : GenBody)
  | get (url : String)
deriving DecidableEq, Repr

/-- Mutable state of a `LocalProvider` instance: the normalized base URL set
in `__init__` and the tracked `_current_model_size`. -/
structure LPState where
  baseUrl : String
  currentModelSize : String
deriving DecidableEq, Repr

/-- `base_url.rstrip('/')` from `LocalProvider.__init__`. -/
def rstripSlash (s : String) : String :=
  String.mk ((s.data.reverse.dropWhile (· = '/')).reverse)

/-- `LocalProvider.__init__`: normalizes the base URL and defaults the
tracked model size to "1.7B". -/
def LPState.init (baseUrl : String) : LPState :=
  ⟨rstripSlash baseUrl, "1.7B"⟩

/-- One caller-visible operation on a `LocalProvider`. -/
inductive LPOp where
  | loadModel (size : String)
  | generate (text : String) (vp : VPDict) (language : String) (seed : Option Int)
  | statusProbe
deriving DecidableEq, Repr

/-- One step of a `LocalProvider`: `load_model_async` only records the size
and issues no request; `generate` POSTs a body carrying the tracked
`_current_model_size` and leaves the tracked size unchanged; `status`
GETs the status endpoint and never mutates state. -/
def lpStep (st : LPState) : LPOp → LPState × List LPRequest
  | .loadModel size => ({ st with currentModelSize := size }, [])
  | .generate text vp language seed =>
      (st, [.post (st.baseUrl ++ "/tts/generate")
              ⟨text, vp, language, seed, st.currentModelSize⟩])
  | .statusProbe => (st, [.get (st.baseUrl ++ "/tts/status")])

/-- Run a sequence of operations, collecting the emitted requests. -/
def lpRun (st : LPState) : List LPOp → LPState × List LPRequest
  | [] => (st, [])
  | op :: ops =>
      let (st1, reqs1) := lpStep st op
      let (st2, reqs2) := lpRun st1 ops
      (st2, reqs1 ++ reqs2)

/-- The outcome of one HTTP probe: a transport-level failure (connection
refused, timeout, non-2xx turned into an exception by
`raise_for_status`, or an unparsable body), or a parsed JSON body. -/
inductive ProbeResult (α : Type) where
  | transportError
  | response (body : α)
deriving DecidableEq, Repr

/-- JSON body of `GET /tts/health` as the provider reads it: mandatory keys
may be missing (a missing key raises `KeyError`, which the caller catches). -/
structure HealthBody where
  status : Option String
  provider : Option String
  version : Option String
  model : Option String
  device : Option String
deriving DecidableEq, Repr

/-- JSON body of `GET /tts/status` as the provider reads it. -/
structure StatusBody where
  modelLoaded : Option Bool
  modelSize : Option String
  availableSizes : Option (List String)
  gpuAvailable : Option Bool
  vramUsedMb : Option Int
deriving DecidableEq, Repr

/-- `LocalProvider.health`: the whole probe is wrapped in `try/except
Exception`, so any transport failure or missing mandatory key degrades to
the fixed unhealthy snapshot instead of raising. -/
def local_health (r : ProbeResult HealthBody) : ProviderHealth :=
  match r with
  | .transportError => ⟨"unhealthy", "local", none, none, none⟩
  | .response b =>
      match b.status, b.provider with
      | some s, some p => ⟨s, p, b.version, b.model, b.device⟩
      | _, _ => ⟨"unhealthy", "local", none, none, none⟩

/-- `LocalProvider.status`: same `try/except Exception` pattern, degrading to
`model_loaded = False` with an empty `available_sizes` list. -/
def local_status (r : ProbeResult StatusBody) : ProviderStatus :=
  match r with
  | .transportError => ⟨false, none, [], none, none⟩
  | .response b =>
      match b.modelLoaded with
      | some ml => ⟨ml, b.modelSize, b.availableSizes.getD [], b.gpuAvailable, b.vramUsedMb⟩
      | none => ⟨false, none, [], none, none⟩

/-- The health probe fails when transport fails or a mandatory key is absent. -/
def healthProbeFails (r : ProbeResult HealthBody) : Bool :=
  match r with
  | .transportError => true
  | .response b => b.status.isNone || b.provider.isNone

/-- The status probe fails when transport fails or `model_loaded` is absent. -/
def statusProbeFails (r : ProbeResult StatusBody) : Bool :=
  match r with
  | .transportError => true
  | .response b => b.modelLoaded.isNone

/-! ### Cloud (Replicate) backend — src/backend/backends/replicate_backend.py -/

/-- Cloud-backend environment: whether `import replicate` succeeds, plus the
two accepted credential variables. -/
structure REnv where
  replicateImportable : Bool
  apiToken : Option String
  apiKey : Option String
deriving DecidableEq, Repr

/-- `ReplicateTTSBackend` instance state: `_loaded` (the `_client` handle is
set exactly when `_loaded` is). -/
structure RepState where
  loaded : Bool
deriving DecidableEq, Repr

/-- Errors raised before any network interaction by the cloud backend. -/
inductive RepErr where
  | importError
  | configError
  | validationError
deriving DecidableEq, Repr

/-- A voice prompt dict as consumed by `ReplicateTTSBackend.generate`:
`audio_base64`, `audio_mime_type` and `reference_text` keys, each possibly
absent. -/
structure RVoicePrompt where
  audioBase64 : Option String
  audioMimeType : Option String
  referenceText : Option String
deriving DecidableEq, Repr

/-- The `input_data` dict submitted to the hosted model by
`ReplicateTTSBackend.generate`; producing this value is the point at which
the backend hands off to the network (`_run_replicate`). -/
structure RepInputData where
  text : String
  mode : String
  refAudio : String
  refText : Option String
  seed : Option Int
deriving DecidableEq, Repr

/-- `ReplicateTTSBackend.load_model_async`: raises `ImportError` when the
replicate package is missing, `ValueError` when neither credential variable
is truthy (`os.environ.get(TOKEN) or os.environ.get(KEY)` then
`if not api_token`), otherwise constructs the client locally — no network
call in any branch. -/
def rep_load_model (env : REnv) : Except RepErr RepState :=
  if ¬env.replicateImportable then
    .error .importError
  else if ¬(truthyOpt env.apiToken ∨ truthyOpt env.apiKey) then
    .error .configError
  else
    .ok ⟨true⟩

/-- The `data:<mime>;base64,<payload>` reference-audio URI built by
`ReplicateTTSBackend.generate` (as a character list). -/
def mkRefAudioUri (mime : List Char) (payload : List Char) : List Char :=
  "data:".data ++ mime ++ ";base64,".data ++ payload

/-- `ReplicateTTSBackend.generate` up to the network hand-off: lazily runs
`load_model_async` when `_loaded` is false, then validates
`voice_prompt.get("audio_base64")` for truthiness, then builds the
`input_data` dict whose production marks the start of the network call.
An `error` result means no network interaction was attempted. -/
def rep_generate (env : REnv) (st : RepState) (text : String) (vp : RVoicePrompt)
    (_language : String) (seed : Option Int) (_instruct : Option String) :
    Except RepErr (RepState × RepInputData) := do
  let st1 ← if st.loaded then pure st else rep_load_model env
  if ¬truthyOpt vp.audioBase64 then
    .error .validationError
  else
    let refAudioUri :=
      mkRefAudioUri (vp.audioMimeType.getD "audio/wav").data (vp.audioBase64.getD "").data
    let refText := if truthyOpt vp.referenceText then vp.referenceText else none
    .ok (st1, ⟨text, "Clone", String.mk refAudioUri, refText, seed⟩)

/-! ### Combining voice prompts — src/backend/backends/replicate_backend.py
`combine_voice_prompts` and src/backend/providers/local.py
`combine_voice_prompts` -/

/-- An audio clip: sample rate and samples, as returned by loading an audio
file at its native rate. -/
structure Clip where
  rate : Nat
  samples : List ℚ
deriving DecidableEq, Repr

/-- The file system seen by the combine operations: audio content per path. -/
def FS : Type := String → Option Clip

/-- Stand-in for the external resampler (`librosa.resample`): output length
scales by `targetSr / origSr`, samples taken nearest-neighbour.  The combine
claims do not depend on its numerics, only on whether and where the combine
operations invoke it. -/
def resample (samples : List ℚ) (origSr targetSr : Nat) : List ℚ :=
  (List.range (samples.length * targetSr / origSr)).map
    (fun i => samples.getD (i * origSr / targetSr) 0)

/-- The per-path loop of `ReplicateTTSBackend.combine_voice_prompts`,
threading the `sample_rate` accumulator exactly as the Python loop does:
first clip fixes the rate, later clips are resampled only when their rate
differs. -/
def repCombineGo (fs : FS) : List String → Option Nat → Option (List (List ℚ))
  | [], _ => some []
  | p :: rest, sr =>
      (fs p).bind fun clip =>
        match sr with
        | none => (repCombineGo fs rest (some clip.rate)).map (clip.samples :: ·)
        | some r =>
            let audio :=
              if clip.rate = r then clip.samples else resample clip.samples clip.rate r
            (repCombineGo fs rest (some r)).map (audio :: ·)

/-- `ReplicateTTSBackend.combine_voice_prompts`: load every clip (a missing
file raises), run the resampling loop, concatenate (`np.concatenate` raises
on an empty list), and space-join the reference texts.  No length check
between the two input lists anywhere. -/
def replicate_combine (fs : FS) (audioPaths : List String)
    (referenceTexts : List String) : Option (List ℚ × String) :=
  (repCombineGo fs audioPaths none).bind fun chunks =>
    if chunks.isEmpty then none
    else some (chunks.flatten, String.intercalate " " referenceTexts)

/-- Modelled from the spec: `utils.audio.load_audio` is not under src/; §4.3
describes the remote-process combine as "loading each audio file", so the
loader returns the file's clip at its native rate. -/
def load_audio (fs : FS) (path : String) : Option Clip :=
  fs path

/-- Modelled from the spec: `utils.audio.normalize_audio` is not under src/;
§4.3 describes it as "normalizing amplitude", modelled as peak
normalization (scale so that the maximum absolute sample is 1; silence is
left unchanged).  It preserves sample count and order. -/
def normalize_audio (xs : List ℚ) : List ℚ :=
  let peak := xs.foldr (fun x m => max |x| m) 0
  if peak = 0 then xs else xs.map (· / peak)

/-- The per-path loop of `LocalProvider.combine_voice_prompts`: load each
file, normalize it, collect — the loaded sample rate is read into `sr` and
then never used, so no resampling happens. -/
def localCombineGo (fs : FS) : List String → Option (List (List ℚ))
  | [] => some []
  | p :: rest =>
      (load_audio fs p).bind fun clip =>
        (localCombineGo fs rest).map (normalize_audio clip.samples :: ·)

/-- `LocalProvider.combine_voice_prompts`: concatenate the normalized clips
in input order (`np.concatenate` raises on an empty list), re-normalize,
and space-join the reference texts.  No length check and no resampling. -/
def local_combine (fs : FS) (audioPaths : List String)
    (referenceTexts : List String) : Option (List ℚ × String) :=
  (localCombineGo fs audioPaths).bind fun chunks =>
    if chunks.isEmpty then none
    else some (normalize_audio chunks.flatten, String.intercalate " " referenceTexts)

/-- Spec-side description of the combine invariant (spec §3): every clip
whose rate differs from the first clip's rate is resampled to the first
clip's rate, and the (possibly resampled) clips are concatenated in input
order. -/
def specCombineAudio (clips : List Clip) : List ℚ :=
  match clips with
  | [] => []
  | c0 :: _ =>
      (clips.map (fun c =>
        if c.rate = c0.rate then c.samples else resample c.samples c.rate c0.rate)).flatten

/-- Load all paths, failing when any is missing (`mapM` over the file
system). -/
def readClips (fs : FS) (paths : List String) : Option (List Clip) :=
  paths.mapM fs

/-! ### Base64 and the data URI round trip —
`base64.b64encode` / `base64.b64decode` semantics as used by
`ReplicateTTSBackend.create_voice_prompt` and `generate` -/

/-- The standard base64 alphabet. -/
def b64Alphabet : List Char :=
  "ABCDEFGHIJKLMNOPQRSTUVWXYZabcdefghijklmnopqrstuvwxyz0123456789+/".data

/-- Sextet (0..63) to base64 character. -/
def encChar (n : Nat) : Char :=
  b64Alphabet.getD n 'A'

/-- Base64 character back to its sextet; `none` for characters outside the
alphabet. -/
def decChar (c : Char) : Option Nat :=
  if 'A' ≤ c ∧ c ≤ 'Z' then some (c.toNat - 65)
  else if 'a' ≤ c ∧ c ≤ 'z' then some (c.toNat - 97 + 26)
  else if '0' ≤ c ∧ c ≤ '9' then some (c.toNat - 48 + 52)
  else if c = '+' then some 62
  else if c = '/' then some 63
  else none

/-- `base64.b64encode` over a byte list (each byte < 256): three bytes to
four characters, with `=` padding for trailing one- or two-byte groups. -/
def b64encode : List Nat → List Char
  | a :: b :: c :: rest =>
      encChar (a / 4) :: encChar ((a % 4) * 16 + b / 16) ::
        encChar ((b % 16) * 4 + c / 64) :: encChar (c % 64) :: b64encode rest
  | [a, b] =>
      [encChar (a / 4), encChar ((a % 4) * 16 + b / 16), encChar ((b % 16) * 4), '=']
  | [a] =>
      [encChar (a / 4), encChar ((a % 4) * 16), '=', '=']
  | [] => []

/-- `base64.b64decode` over a character list: four characters to three
bytes, with `=` padding accepted only at the end. -/
def b64decode : List Char → Option (List Nat)
  | [] => some []
  | c1 :: c2 :: c3 :: c4 :: rest =>
      match decChar c1, decChar c2 with
      | some s1, some s2 =>
          if c3 = '=' then
            if c4 = '=' ∧ rest = [] then some [s1 * 4 + s2 / 16] else none
          else
            match decChar c3 with
            | some s3 =>
                if c4 = '=' then
                  if rest = [] then some [s1 * 4 + s2 / 16, (s2 % 16) * 16 + s3 / 4]
                  else none
                else
                  match decChar c4 with
                  | some s4 =>
                      (b64decode rest).map
                        (fun tl => (s1 * 4 + s2 / 16) :: ((s2 % 16) * 16 + s3 / 4) ::
                          ((s3 % 4) * 64 + s4) :: tl)
                  | none => none
            | none => none
      | _, _ => none
  | _ => none

/-- Extract the base64 payload back out of a data URI built by
`mkRefAudioUri` for a known MIME type: drop `data:<mime>;base64,`. -/
def dataUriPayload (mime : List Char) (uri : List Char) : List Char :=
  uri.drop ("data:".length + mime.length + ";base64,".length)

/-- A concrete two-file file system used to evaluate the combine operations:
clip "a" at 8000 Hz with one sample, clip "b" at 16000 Hz with two samples. -/
def exFS : FS := fun p =>
  if p = "a" then some ⟨8000, [0]⟩
  else if p = "b" then some ⟨16000, [0, 0]⟩
  else none

/-- Decoding inverts encoding on each sextet. -/
theorem decChar_encChar : ∀ n, n < 64 → decChar (encChar n) = some n := by
  decide

/-- Alphabet characters are never the padding character. -/
theorem encChar_ne_pad : ∀ n, n < 64 → encChar n ≠ '=' := by
  decide

/-- `b64decode` on a full four-character alphabet chunk. -/
theorem b64decode_chunk (s1 s2 s3 s4 : Nat) (h1 : s1 < 64) (h2 : s2 < 64)
    (h3 : s3 < 64) (h4 : s4 < 64) (rest : List Char) :
    b64decode (encChar s1 :: encChar s2 :: encChar s3 :: encChar s4 :: rest) =
      (b64decode rest).map
        (fun tl => (s1 * 4 + s2 / 16) :: ((s2 % 16) * 16 + s3 / 4) ::
          ((s3 % 4) * 64 + s4) :: tl) := by
  have e1 := decChar_encChar s1 h1
  have e2 := decChar_encChar s2 h2
  have e3 := decChar_encChar s3 h3
  have e4 := decChar_encChar s4 h4
  have n3 := encChar_ne_pad s3 h3
  have n4 := encChar_ne_pad s4 h4
  simp [b64decode, e1, e2, e3, e4, n3, n4]

/-- `b64decode` on a two-character chunk with double padding. -/
theorem b64decode_pad2 (s1 s2 : Nat) (h1 : s1 < 64) (h2 : s2 < 64) :
    b64decode [encChar s1, encChar s2, '=', '='] = some [s1 * 4 + s2 / 16] := by
  have e1 := decChar_encChar s1 h1
  have e2 := decChar_encChar s2 h2
  simp [b64decode, e1, e2]

/-- `b64decode` on a three-character chunk with single padding. -/
theorem b64decode_pad1 (s1 s2 s3 : Nat) (h1 : s1 < 64) (h2 : s2 < 64)
    (h3 : s3 < 64) :
    b64decode [encChar s1, encChar s2, encChar s3, '='] =
      some [s1 * 4 + s2 / 16, (s2 % 16) * 16 + s3 / 4] := by
  have e1 := decChar_encChar s1 h1
  have e2 := decChar_encChar s2 h2
  have e3 := decChar_encChar s3 h3
  have n3 := encChar_ne_pad s3 h3
  simp [b64decode, e1, e2, e3, n3]

/-- Base64 round trip: decoding an encoded byte list recovers it exactly. -/
theorem b64_roundtrip : ∀ bs : List Nat, (∀ b ∈ bs, b < 256) →
    b64decode (b64encode bs) = some bs := by
  intro bs
  induction bs using b64encode.induct with
  | case1 a b c rest ih =>
      intro h
      have ha : a < 256 := h a (by simp)
      have hb : b < 256 := h b (by simp)
      have hc : c < 256 := h c (by simp)
      have hrest : ∀ x ∈ rest, x < 256 := fun x hx => h x (by simp [hx])
      rw [show b64encode (a :: b :: c :: rest) =
            encChar (a / 4) :: encChar ((a % 4) * 16 + b / 16) ::
              encChar ((b % 16) * 4 + c / 64) :: encChar (c % 64) :: b64encode rest
          from rfl]
      rw [b64decode_chunk _ _ _ _ (by omega) (by omega) (by omega) (by omega)]
      rw [ih hrest]
      simp only [Option.map_some', Option.some.injEq, List.cons.injEq]
      refine ⟨by omega, by omega, by omega, trivial⟩
  | case2 a b =>
      intro h
      have ha : a < 256 := h a (by simp)
      have hb : b < 256 := h b (by simp)
      rw [show b64encode [a, b] =
            [encChar (a / 4), encChar ((a % 4) * 16 + b / 16),
              encChar ((b % 16) * 4), '='] from rfl]
      rw [b64decode_pad1 _ _ _ (by omega) (by omega) (by omega)]
      simp only [Option.some.injEq, List.cons.injEq]
      refine ⟨by omega, by omega, trivial⟩
  | case3 a =>
      intro h
      have ha : a < 256 := h a (by simp)
      rw [show b64encode [a] =
            [encChar (a / 4), encChar ((a % 4) * 16), '=', '='] from rfl]
      rw [b64decode_pad2 _ _ (by omega) (by omega)]
      simp only [Option.some.injEq, List.cons.injEq]
      exact ⟨by omega, trivial⟩
  | case4 =>
      intro _
      rfl

/-- Dropping the `data:<mime>;base64,` head of a data URI built by
`mkRefAudioUri` yields the payload. -/
theorem dataUriPayload_mk (mime payload : List Char) :
    dataUriPayload mime (mkRefAudioUri mime payload) = payload := by
  have h : mkRefAudioUri mime payload =
      ("data:".data ++ mime ++ ";base64,".data) ++ payload := by
    simp [mkRefAudioUri]
  rw [dataUriPayload, h]
  rw [List.drop_left']
  have h5 : "data:".length = 5 := rfl
  have h8 : ";base64,".length = 8 := rfl
  simp [List.length_append, h5, h8]
  omega

/-- `readClips` on a cons: read the head file, then the rest. -/
theorem readClips_cons (fs : FS) (p : String) (ps : List String) :
    readClips fs (p :: ps) =
      (fs p).bind fun c => (readClips fs ps).map (c :: ·) := by
  simp only [readClips, List.mapM_cons]
  cases fs p with
  | none => rfl
  | some c =>
      cases ps.mapM fs with
      | none => rfl
      | some cs => rfl

/-- When every path is readable, `readClips` succeeds. -/
theorem readClips_isSome (fs : FS) :
    ∀ paths : List String, (∀ p ∈ paths, (fs p).isSome = true) →
      ∃ clips : List Clip, readClips fs paths = some clips ∧
        clips.length = paths.length := by
  intro paths
  induction paths with
  | nil => intro _; exact ⟨[], rfl, rfl⟩
  | cons p ps ih =>
      intro h
      obtain ⟨cs, hcs, hlen⟩ := ih (fun q hq => h q (by simp [hq]))
      have hp : (fs p).isSome = true := h p (by simp)
      obtain ⟨c, hc⟩ := Option.isSome_iff_exists.mp hp
      refine ⟨c :: cs, ?_, by simp [hlen]⟩
      rw [readClips_cons, hc, hcs]
      rfl

/-- The local combine loop maps amplitude normalization over the loaded
clips, in input order. -/
theorem localCombineGo_readClips (fs : FS) :
    ∀ (paths : List String) (clips : List Clip),
      readClips fs paths = some clips →
      localCombineGo fs paths = some (clips.map fun c => normalize_audio c.samples) := by
  intro paths
  induction paths with
  | nil =>
      intro clips h
      have h0 : some [] = some clips := h
      cases h0
      rfl
  | cons p ps ih =>
      intro clips h
      rw [readClips_cons] at h
      cases hc : fs p with
      | none => rw [hc] at h; exact absurd h (by simp)
      | some c =>
          rw [hc] at h
          cases hcs : readClips fs ps with
          | none => rw [hcs] at h; exact absurd h (by simp)
          | some cs =>
              rw [hcs] at h
              have h' : c :: cs = clips := by simpa using h
              subst h'
              simp [localCombineGo, load_audio, hc, ih cs hcs]

/-- The replicate combine loop with an already-fixed target rate resamples
exactly the clips whose rate differs, in input order. -/
theorem repCombineGo_readClips (fs : FS) :
    ∀ (paths : List String) (clips : List Clip) (r : Nat),
      readClips fs paths = some clips →
      repCombineGo fs paths (some r) =
        some (clips.map fun c =>
          if c.rate = r then c.samples else resample c.samples c.rate r) := by
  intro paths
  induction paths with
  | nil =>
      intro clips r h
      have h0 : some [] = some clips := h
      cases h0
      rfl
  | cons p ps ih =>
      intro clips r h
      rw [readClips_cons] at h
      cases hc : fs p with
      | none => rw [hc] at h; exact absurd h (by simp)
      | some c =>
          rw [hc] at h
          cases hcs : readClips fs ps with
          | none => rw [hcs] at h; exact absurd h (by simp)
          | some cs =>
              rw [hcs] at h
              have h' : c :: cs = clips := by simpa using h
              subst h'
              simp [repCombineGo, hc, ih cs r hcs]

/-- `ReplicateTTSBackend.combine_voice_prompts` refines the spec-side
combine description: resample to the first clip's rate, concatenate in
input order, space-join the texts. -/
theorem replicate_combine_refines (fs : FS) (paths texts : List String)
    (clips : List Clip) (h : readClips fs paths = some clips)
    (hne : paths ≠ []) :
    replicate_combine fs paths texts =
      some (specCombineAudio clips, String.intercalate " " texts) := by
  cases paths with
  | nil => exact absurd rfl hne
  | cons p ps =>
      rw [readClips_cons] at h
      cases hc : fs p with
      | none => rw [hc] at h; exact absurd h (by simp)
      | some c0 =>
          rw [hc] at h
          cases hcs : readClips fs ps with
          | none => rw [hcs] at h; exact absurd h (by simp)
          | some cs =>
              rw [hcs] at h
              have h' : c0 :: cs = clips := by simpa using h
              subst h'
              have hgo : repCombineGo fs (p :: ps) none =
                  some (c0.samples :: cs.map fun c =>
                    if c.rate = c0.rate then c.samples
                    else resample c.samples c.rate c0.rate) := by
                simp [repCombineGo, hc, repCombineGo_readClips fs ps cs c0.rate hcs]
              simp [replicate_combine, hgo, specCombineAudio]

/-- `LocalProvider.combine_voice_prompts` concatenates the normalized clips
in input order without resampling, then re-normalizes and space-joins. -/
theorem local_combine_eq (fs : FS) (paths texts : List String)
    (clips : List Clip) (h : readClips fs paths = some clips)
    (hne : paths ≠ []) :
    local_combine fs paths texts =
      some (normalize_audio ((clips.map fun c => normalize_audio c.samples).flatten),
        String.intercalate " " texts) := by
  have hgo := localCombineGo_readClips fs paths clips h
  have hclips : clips ≠ [] := by
    intro hnil
    subst hnil
    cases paths with
    | nil => exact hne rfl
    | cons p ps =>
        rw [readClips_cons] at h
        cases hc : fs p with
        | none => rw [hc] at h; exact absurd h (by simp)
        | some c =>
            rw [hc] at h
            cases hcs : readClips fs ps with
            | none => rw [hcs] at h; exact absurd h (by simp)
            | some cs => rw [hcs] at h; simp at h
  cases clips with
  | nil => exact absurd rfl hclips
  | cons c cs => simp [local_combine, hgo]

/-- C4: on the Remote-Process Provider, `health()` and `status()` are total
(the model functions return a snapshot for every probe outcome, including
transport failure and malformed bodies — the `try/except` in the source),
and whenever the probe fails, `health` returns exactly the "unhealthy"
snapshot and `status` exactly the empty snapshot with `model_loaded = false`
and no available sizes. -/
theorem C4_theorem (rh : ProbeResult HealthBody) (rs : ProbeResult StatusBody)
    (hh : healthProbeFails rh = true) (hs : statusProbeFails rs = true) :
    local_health rh = ⟨"unhealthy", "local", none, none, none⟩ ∧
    local_status rs = ⟨false, none, [], none, none⟩ := by
  constructor
  · cases rh with
    | transportError => rfl
    | response b =>
        simp only [healthProbeFails, Bool.or_eq_true, Option.isNone_iff_eq_none] at hh
        cases hb : b.status with
        | none => cases hp : b.provider <;> simp [local_health, hb, hp]
        | some s =>
            have hp : b.provider = none := by
              rcases hh with h1 | h2
              · rw [hb] at h1; exact absurd h1 (by simp)
              · exact h2
            simp [local_health, hb, hp]
  · cases rs with
    | transportError => rfl
    | response b =>
        simp only [statusProbeFails, Option.isNone_iff_eq_none] at hs
        simp [local_status, hs]

/-- C4 witness: both probes completely unreachable. -/
theorem C4_witness :
    local_health ProbeResult.transportError = ⟨"unhealthy", "local", none, none, none⟩ ∧
    local_status ProbeResult.transportError = ⟨false, none, [], none, none⟩ :=
  C4_theorem ProbeResult.transportError ProbeResult.transportError rfl rfl

/-- C5: on the Remote-Process Provider, the tracked model size defaults to
"1.7B" at construction; `loadModel` issues no request and only updates the
tracked size; `generate` POSTs a body whose `model_size` is the tracked
size; any run of non-`loadModel` operations leaves the tracked size
unchanged; and in the concrete scenario, `loadModel "0.6B"` followed by
`generate "hello"` emits exactly one POST carrying `model_size = "0.6B"`. -/
theorem C5_theorem :
    (∀ url : String, (LPState.init url).currentModelSize = "1.7B") ∧
    (∀ (st : LPState) (size : String),
      lpStep st (.loadModel size) = ({ st with currentModelSize := size }, [])) ∧
    (∀ (st : LPState) (text : String) (vp : VPDict) (language : String)
        (seed : Option Int),
      lpStep st (.generate text vp language seed) =
        (st, [.post (st.baseUrl ++ "/tts/generate")
                ⟨text, vp, language, seed, st.currentModelSize⟩])) ∧
    (∀ (st : LPState) (ops : List LPOp),
      (∀ op ∈ ops, ∀ size, op ≠ LPOp.loadModel size) →
      (lpRun st ops).1.currentModelSize = st.currentModelSize) ∧
    (∀ vp : VPDict,
      (lpRun (LPState.init "http://localhost:8000")
        [LPOp.loadModel "0.6B", LPOp.generate "hello" vp "en" none]).2 =
      [LPRequest.post "http://localhost:8000/tts/generate"
        ⟨"hello", vp, "en", none, "0.6B"⟩]) := by
  refine ⟨fun _ => rfl, fun _ _ => rfl, fun _ _ _ _ _ => rfl, ?_, fun _ => rfl⟩
  intro st ops
  induction ops generalizing st with
  | nil => intro _; rfl
  | cons op rest ih =>
      intro h
      cases op with
      | loadModel size => exact absurd rfl (h _ (by simp) size)
      | generate text vp language seed =>
          simpa [lpRun, lpStep] using ih st (fun o ho => h o (by simp [ho]))
      | statusProbe =>
          simpa [lpRun, lpStep] using ih st (fun o ho => h o (by simp [ho]))

/-- C5 witness: a status probe alone does not change the tracked size. -/
theorem C5_witness :
    (lpRun (LPState.init "http://localhost:8000") [LPOp.statusProbe]).1.currentModelSize =
      (LPState.init "http://localhost:8000").currentModelSize :=
  C5_theorem.2.2.2.1 (LPState.init "http://localhost:8000") [LPOp.statusProbe]
    (by intro op hop size; simp at hop; simp [hop])

/-- C6: the Backend Selector resolves in order: recognized explicit override
wins; else a truthy credential variable selects Replicate; else Apple
Silicon with mlx importable selects MLX; else PyTorch.  In particular an
unrecognized override with no credentials on a non-accelerator host
resolves to PyTorch. -/
theorem C6_theorem (env : Env) (host : Host) :
    ((pyLower (env.ttsBackend.getD "") = "mlx" ∨
      pyLower (env.ttsBackend.getD "") = "pytorch" ∨
      pyLower (env.ttsBackend.getD "") = "replicate") →
      get_backend_type env host = pyLower (env.ttsBackend.getD "")) ∧
    (¬(pyLower (env.ttsBackend.getD "") = "mlx" ∨
       pyLower (env.ttsBackend.getD "") = "pytorch" ∨
       pyLower (env.ttsBackend.getD "") = "replicate") →
      ((truthyOpt env.replicateApiToken = true ∨ truthyOpt env.replicateApiKey = true) →
        get_backend_type env host = "replicate") ∧
      (truthyOpt env.replicateApiToken = false → truthyOpt env.replicateApiKey = false →
        ((is_apple_silicon host = true ∧ host.mlxImportable = true →
           get_backend_type env host = "mlx") ∧
         (is_apple_silicon host = false ∨ host.mlxImportable = false →
           get_backend_type env host = "pytorch")))) := by
  constructor
  · intro h
    simp only [get_backend_type]
    rw [if_pos h]
  · intro h
    refine ⟨?_, ?_⟩
    · intro hcred
      simp only [get_backend_type]
      rw [if_neg h, if_pos (by simpa using hcred)]
    · intro ht hk
      constructor
      · rintro ⟨has, hmlx⟩
        simp only [get_backend_type]
        rw [if_neg h, if_neg (by simp [ht, hk]), if_pos (by simp [has]), if_pos (by simp [hmlx])]
      · intro hor
        simp only [get_backend_type]
        rw [if_neg h, if_neg (by simp [ht, hk])]
        rcases hor with has | hmlx
        · rw [if_neg (by simp [has])]
        · by_cases has : is_apple_silicon host = true
          · rw [if_pos (by simp [has]), if_neg (by simp [hmlx])]
          · rw [if_neg (by simpa using has)]

/-- C6 witness: override "bogus", no credentials, Linux x86_64 host resolves
to the portable PyTorch backend. -/
theorem C6_witness :
    get_backend_type ⟨some "bogus", none, none⟩ ⟨"Linux", "x86_64", false⟩ = "pytorch" :=
  ((((C6_theorem ⟨some "bogus", none, none⟩ ⟨"Linux", "x86_64", false⟩).2
    (by decide)).2 (by decide) (by decide)).2) (by decide)

/-- C8: the In-Process Provider's `status()` advertises `["1.7B"]` when the
MLX backend is active and `["1.7B", "0.6B"]` when the PyTorch backend is
active, in every backend/torch state. -/
theorem C8_theorem (env : Env) (host : Host) (b : BackendObs) (t : TorchObs) :
    (get_backend_type env host = "mlx" →
      (bundled_status env host b t).availableSizes = ["1.7B"]) ∧
    (get_backend_type env host = "pytorch" →
      (bundled_status env host b t).availableSizes = ["1.7B", "0.6B"]) := by
  constructor <;> intro h <;> simp [bundled_status, h]

/-- C8 witness: an MLX host and a PyTorch host with concrete states. -/
theorem C8_witness :
    (bundled_status ⟨some "mlx", none, none⟩ ⟨"Darwin", "arm64", true⟩
      ⟨false, none, none⟩ ⟨false, false, 0⟩).availableSizes = ["1.7B"] ∧
    (bundled_status ⟨some "pytorch", none, none⟩ ⟨"Linux", "x86_64", false⟩
      ⟨false, none, none⟩ ⟨false, false, 0⟩).availableSizes = ["1.7B", "0.6B"] :=
  ⟨(C8_theorem _ _ _ _).1 (by decide), (C8_theorem _ _ _ _).2 (by decide)⟩

/-- C9: the In-Process Provider's `health()` always reports status
"healthy" — in every environment, host and backend state — and therefore
never reports "unhealthy". -/
theorem C9_theorem (env : Env) (host : Host) (b : BackendObs) :
    (bundled_health env host b).status = "healthy" ∧
    (bundled_health env host b).status ≠ "unhealthy" := by
  refine ⟨rfl, ?_⟩
  intro h
  rw [show (bundled_health env host b).status = "healthy" from rfl] at h
  exact absurd h (by decide)

/-- C1 counterexample: with the client not yet initialized and neither
credential variable set, `generate` on an empty-audio prompt raises the
configuration error from the lazily-run model-load step, not the
input-validation error the claim asserts. -/
theorem C1_counterexample :
    rep_generate ⟨true, none, none⟩ ⟨false⟩ "hello" ⟨some "", none, none⟩ "en" none none =
      Except.error RepErr.configError ∧
    RepErr.configError ≠ RepErr.validationError := by
  exact ⟨rfl, by decide⟩

/-- C1 (amended): `generate` on the Cloud Provider with a voice prompt whose
`audio_base64` is empty or absent never reaches the network hand-off (the
result is always an error), and — provided the lazily-run model-load step
succeeds (client already initialized, or the replicate package importable
with a credential variable set) — that error is the input-validation
error. -/
theorem C1_theorem (env : REnv) (st : RepState) (text : String)
    (vp : RVoicePrompt) (language : String) (seed : Option Int)
    (instruct : Option String) (haudio : truthyOpt vp.audioBase64 = false) :
    (∀ r, rep_generate env st text vp language seed instruct ≠ Except.ok r) ∧
    ((st.loaded = true ∨ (env.replicateImportable = true ∧
        (truthyOpt env.apiToken = true ∨ truthyOpt env.apiKey = true))) →
      rep_generate env st text vp language seed instruct =
        Except.error RepErr.validationError) := by
  constructor
  · intro r hr
    cases hl : st.loaded with
    | true => simp [rep_generate, hl, haudio] at hr
    | false =>
        simp only [rep_generate, hl] at hr
        cases hload : rep_load_model env with
        | error e =>
            simp only [hload] at hr
            exact Except.noConfusion hr
        | ok st1 =>
            simp only [hload] at hr
            simp only [haudio] at hr
            simp at hr
            exact Except.noConfusion hr
  · intro h
    cases hl : st.loaded with
    | true => simp [rep_generate, hl, haudio]
    | false =>
        rcases h with h | ⟨himp, hcred⟩
        · rw [hl] at h; exact absurd h (by decide)
        · have hload : rep_load_model env = pure ⟨true⟩ := by
            rcases hcred with ht | hk
            · simp only [rep_load_model, himp]
              simp [ht]
              rfl
            · simp only [rep_load_model, himp]
              simp [hk]
              rfl
          simp [rep_generate, hl, hload, haudio]

/-- C1 witness: loaded client, empty-audio prompt: validation error. -/
theorem C1_witness :
    rep_generate ⟨true, some "tok", none⟩ ⟨true⟩ "hi" ⟨none, none, none⟩ "en" none none =
      Except.error RepErr.validationError :=
  (C1_theorem ⟨true, some "tok", none⟩ ⟨true⟩ "hi" ⟨none, none, none⟩ "en" none none
    (by decide)).2 (Or.inl rfl)

/-- C10: when `generate` runs before a successful `loadModel`, the lazily
invoked model-load step comes first: with no credential set and an
empty-audio prompt the caller sees the configuration error, not the
input-validation error; and when a credential is set, the load step runs
and the call proceeds with a loaded client. -/
theorem C10_theorem :
    (∀ (env : REnv) (st : RepState) (text : String) (vp : RVoicePrompt)
        (language : String) (seed : Option Int) (instruct : Option String),
      st.loaded = false → env.replicateImportable = true →
      truthyOpt env.apiToken = false → truthyOpt env.apiKey = false →
      truthyOpt vp.audioBase64 = false →
      rep_generate env st text vp language seed instruct =
        Except.error RepErr.configError) ∧
    (∀ (env : REnv) (st : RepState) (text : String) (vp : RVoicePrompt)
        (language : String) (seed : Option Int) (instruct : Option String),
      st.loaded = false → env.replicateImportable = true →
      truthyOpt env.apiToken = true → truthyOpt vp.audioBase64 = true →
      ∃ d, rep_generate env st text vp language seed instruct =
        Except.ok (⟨true⟩, d)) := by
  constructor
  · intro env st text vp language seed instruct hl himp ht hk _
    have hload : rep_load_model env = Except.error RepErr.configError := by
      simp [rep_load_model, himp, ht, hk]
    simp only [rep_generate, hl]
    rw [hload]
    rfl
  · intro env st text vp language seed instruct hl himp ht haudio
    have hload : rep_load_model env = pure ⟨true⟩ := by
      simp only [rep_load_model, himp]
      simp [ht]
      rfl
    refine ⟨⟨text, "Clone",
      String.mk (mkRefAudioUri (vp.audioMimeType.getD "audio/wav").data
        (vp.audioBase64.getD "").data),
      if truthyOpt vp.referenceText then vp.referenceText else none, seed⟩, ?_⟩
    simp [rep_generate, hl, hload, haudio]

/-- C10 witness: concrete unloaded states with and without credentials. -/
theorem C10_witness :
    rep_generate ⟨true, none, none⟩ ⟨false⟩ "hi" ⟨some "", none, none⟩ "en" none none =
      Except.error RepErr.configError ∧
    ∃ d, rep_generate ⟨true, some "tok", none⟩ ⟨false⟩ "hi" ⟨some "QUJD", none, none⟩
        "en" none none = Except.ok (⟨true⟩, d) :=
  ⟨C10_theorem.1 ⟨true, none, none⟩ ⟨false⟩ "hi" ⟨some "", none, none⟩ "en" none none
      rfl rfl (by decide) (by decide) (by decide),
   C10_theorem.2 ⟨true, some "tok", none⟩ ⟨false⟩ "hi" ⟨some "QUJD", none, none⟩
      "en" none none rfl rfl (by decide) (by decide)⟩

/-- C2 counterexample: with two readable audio files and one reference text
(unequal list lengths), both `combine_voice_prompts` implementations return
a combined prompt instead of failing. -/
theorem C2_counterexample :
    (["a", "b"] : List String).length ≠ (["t"] : List String).length ∧
    (local_combine exFS ["a", "b"] ["t"]).isSome = true ∧
    (replicate_combine exFS ["a", "b"] ["t"]).isSome = true := by
  refine ⟨by decide, by decide, by decide⟩

/-- C2 (amended): neither `combine_voice_prompts` implementation validates
that the input lists have equal length: for every non-empty list of
readable audio paths and every reference-text list (of any length), both
implementations succeed and return a combined prompt. -/
theorem C2_theorem (fs : FS) (paths texts : List String)
    (hne : paths ≠ []) (hread : ∀ p ∈ paths, (fs p).isSome = true) :
    (local_combine fs paths texts).isSome = true ∧
    (replicate_combine fs paths texts).isSome = true := by
  obtain ⟨clips, hclips, _⟩ := readClips_isSome fs paths hread
  constructor
  · rw [local_combine_eq fs paths texts clips hclips hne]
    rfl
  · rw [replicate_combine_refines fs paths texts clips hclips hne]
    rfl

/-- C2 witness: the concrete mismatched-length call succeeds. -/
theorem C2_witness :
    (local_combine exFS ["a", "b"] ["t"]).isSome = true ∧
    (replicate_combine exFS ["a", "b"] ["t"]).isSome = true :=
  C2_theorem exFS ["a", "b"] ["t"] (by decide) (by decide)

/-- C3 counterexample: on two readable clips whose rates differ (8000 Hz
then 16000 Hz), the Remote-Process Provider's combine does not resample the
second clip to the first clip's rate: its output differs from the
resample-to-first-then-concatenate result the claim requires of every
implementation. -/
theorem C3_counterexample :
    readClips exFS ["a", "b"] = some [⟨8000, [0]⟩, ⟨16000, [0, 0]⟩] ∧
    (local_combine exFS ["a", "b"] ["t"]).map Prod.fst ≠
      some (specCombineAudio [⟨8000, [0]⟩, ⟨16000, [0, 0]⟩]) := by
  refine ⟨by decide, by decide⟩

/-- C3 (amended): the Cloud Provider's combine resamples every clip whose
rate differs from the first clip's rate to that rate and concatenates in
input order (with space-joined texts); the Remote-Process Provider's
combine performs no resampling — it concatenates the amplitude-normalized
clips in input order and re-normalizes the result. -/
theorem C3_theorem :
    (∀ (fs : FS) (paths texts : List String) (clips : List Clip),
      readClips fs paths = some clips → paths ≠ [] →
      replicate_combine fs paths texts =
        some (specCombineAudio clips, String.intercalate " " texts)) ∧
    (∀ (fs : FS) (paths texts : List String) (clips : List Clip),
      readClips fs paths = some clips → paths ≠ [] →
      local_combine fs paths texts =
        some (normalize_audio ((clips.map fun c => normalize_audio c.samples).flatten),
          String.intercalate " " texts)) :=
  ⟨replicate_combine_refines, local_combine_eq⟩

/-- C3 witness: both halves evaluated on the concrete two-clip file system. -/
theorem C3_witness :
    replicate_combine exFS ["a", "b"] ["t"] =
      some (specCombineAudio [⟨8000, [0]⟩, ⟨16000, [0, 0]⟩],
        String.intercalate " " ["t"]) ∧
    local_combine exFS ["a", "b"] ["t"] =
      some (normalize_audio
        (([⟨8000, [0]⟩, ⟨16000, [0, 0]⟩].map fun c : Clip => normalize_audio c.samples).flatten),
        String.intercalate " " ["t"]) :=
  ⟨C3_theorem.1 exFS ["a", "b"] ["t"] [⟨8000, [0]⟩, ⟨16000, [0, 0]⟩] (by decide) (by decide),
   C3_theorem.2 exFS ["a", "b"] ["t"] [⟨8000, [0]⟩, ⟨16000, [0, 0]⟩] (by decide) (by decide)⟩

/-- C7: encoding any byte buffer into the `data:<mime>;base64,<payload>`
URI built by the Cloud Provider and then base64-decoding the payload
recovers the original bytes exactly. -/
theorem C7_theorem (bytes : List Nat) (h : ∀ b ∈ bytes, b < 256)
    (mime : List Char) :
    b64decode (dataUriPayload mime (mkRefAudioUri mime (b64encode bytes))) =
      some bytes := by
  rw [dataUriPayload_mk]
  exact b64_roundtrip bytes h

/-- C7 witness: a concrete five-byte buffer through the audio/wav data URI. -/
theorem C7_witness :
    b64decode (dataUriPayload "audio/wav".data
      (mkRefAudioUri "audio/wav".data (b64encode [0, 255, 77, 10, 128]))) =
      some [0, 255, 77, 10, 128] :=
  C7_theorem [0, 255, 77, 10, 128] (by decide) "audio/wav".data
